import Mathlib

/-!
Verification development for the smart-books-ai record reconciliation and
deduplication core.  The Python sources under `book-processing/` are shallowly
embedded: pure string manipulation becomes functions on `List Char` / `String`,
pandas rows become structures with `Option` fields for possibly-missing (NaN)
values, and the enrichment loop becomes an explicit fold with the external
HTTP lookup abstracted as an `Except`-valued function parameter.

Conventions for the embedding of Python string primitives:
* Python's `str.strip()` and the regex class `\s` are modelled over the six
  ASCII whitespace characters (space, tab, LF, CR, VT, FF); the data handled
  by the pipeline is ASCII-clean in this respect.
* `str.lower()` / `str.upper()` are modelled with `Char.toLower`/`Char.toUpper`
  (ASCII case folding), and `[A-Z]`, `\d` with ASCII ranges, matching the
  byte-oriented character classes used by the source regexes.
* Regex substitutions are modelled by dedicated scanners that reproduce the
  leftmost-match, greedy semantics of `re.sub` for the concrete patterns that
  appear in the source.  `$` is modelled as end-of-string: every string these
  patterns are applied to has been stripped of trailing whitespace first, so
  the before-final-newline behaviour of Python's `$` is unreachable.
-/

namespace SmartBooks

/-- The six ASCII characters matched by Python's `\s` and `str.strip()`. -/
def isPySpace (c : Char) : Bool :=
  c = ' ' || c = '\t' || c = '\n' || c = '\r' || c = Char.ofNat 11 || c = Char.ofNat 12

/-- Python `str.strip()` on a character list. -/
def pyStripList (l : List Char) : List Char :=
  ((l.dropWhile isPySpace).reverse.dropWhile isPySpace).reverse

/-- Python `str.strip()`. -/
def pyStrip (s : String) : String :=
  ⟨pyStripList s.data⟩

/-- Python `str.lower()` (ASCII). -/
def pyLower (s : String) : String :=
  ⟨s.data.map Char.toLower⟩

/-- Replace every maximal whitespace run by a single space:
`re.sub(r'\s+', ' ', text)`. -/
def squeezeWs : List Char → List Char
  | [] => []
  | [a] => [if isPySpace a then ' ' else a]
  | a :: b :: rest =>
    if isPySpace a && isPySpace b then squeezeWs (b :: rest)
    else (if isPySpace a then ' ' else a) :: squeezeWs (b :: rest)

/-- Characters deleted by `re.sub(r'[=""\s-]', '', ...)` in `clean_isbn`. -/
def isIsbnJunk (c : Char) : Bool :=
  c = '=' || c = '"' || c = '-' || isPySpace c

/-- Characters kept by `re.sub(r'[^0-9Xx]', '', ...)` in `clean_isbn`. -/
def isIsbnKeep (c : Char) : Bool :=
  c.isDigit || c = 'X' || c = 'x'

/-- Core of `clean_isbn` from `build_base_dataset.py`: remove the
spreadsheet-escape characters, strip, keep only `[0-9Xx]`, uppercase. -/
def cleanIsbnCore (l : List Char) : List Char :=
  ((pyStripList (l.filter (fun c => !isIsbnJunk c))).filter isIsbnKeep).map Char.toUpper

/-- `clean_isbn` from `build_base_dataset.py` (the string case; a NaN input is
handled by the callers passing `none` through `Option.bind`).  Returns `none`
when fewer than 10 characters remain. -/
def clean_isbn (s : String) : Option String :=
  let c := cleanIsbnCore s.data
  if c.length < 10 then none else some ⟨c⟩

/-- `normalize_text` from `build_base_dataset.py`: lowercase, strip, collapse
whitespace runs to single spaces. -/
def normalize_text (s : String) : String :=
  ⟨squeezeWs (pyStripList (s.data.map Char.toLower))⟩

/-- Reversed inner part of the series-annotation pattern
`[^)]*,\s*#?\d+(?:\.\d+)?` (checked right-to-left: digits, optional
fractional part, optional `#`, whitespace, then the separating comma). -/
def seriesInnerMatch (innerRev : List Char) : Bool :=
  let t1 := innerRev.takeWhile Char.isDigit
  let r1 := innerRev.dropWhile Char.isDigit
  if t1.isEmpty then false
  else
    let r2 : Option (List Char) :=
      match r1 with
      | '.' :: tl =>
        if (tl.takeWhile Char.isDigit).isEmpty then none
        else some (tl.dropWhile Char.isDigit)
      | _ => some r1
    match r2 with
    | none => false
    | some rest =>
      let rest1 := match rest with
                   | '#' :: tl => tl
                   | other => other
      match rest1.dropWhile isPySpace with
      | ',' :: _ => true
      | _ => false

/-- Whole-suffix match for `\s*\([^)]*,\s*#?\d+(?:\.\d+)?\)\s*$`
(series info such as `" (Harry Potter, #1)"`). -/
def seriesSuffixMatch (l : List Char) : Bool :=
  match l.dropWhile isPySpace with
  | '(' :: rest =>
    let inner := rest.takeWhile (fun c => c ≠ ')')
    match rest.dropWhile (fun c => c ≠ ')') with
    | ')' :: tail => tail.all isPySpace && seriesInnerMatch inner.reverse
    | _ => false
  | _ => false

/-- Whole-suffix match for `\s*\([^)]+\)\s*$` (any trailing parenthetical). -/
def parenSuffixMatch (l : List Char) : Bool :=
  match l.dropWhile isPySpace with
  | '(' :: rest =>
    let inner := rest.takeWhile (fun c => c ≠ ')')
    match rest.dropWhile (fun c => c ≠ ')') with
    | ')' :: tail => !inner.isEmpty && tail.all isPySpace
    | _ => false
  | _ => false

/-- `re.sub(pat, '', s)` for a `$`-anchored pattern: delete the suffix starting
at the leftmost position whose remainder matches `m` (both suffix patterns
above require a parenthesis, so they never match the empty string). -/
def stripTrailingAux (m : List Char → Bool) : List Char → Option (List Char)
  | [] => none
  | c :: rest =>
    if m (c :: rest) then some [] else (stripTrailingAux m rest).map (c :: ·)

/-- Remove the leftmost suffix matching `m`, or leave the list unchanged. -/
def stripTrailingMatch (m : List Char → Bool) (l : List Char) : List Char :=
  (stripTrailingAux m l).getD l

/-- One match attempt of `\s*\[[^\]]+\]\s*` at the current position: greedy
leading whitespace, a non-empty bracketed chunk, greedy trailing whitespace.
Returns the remainder after the match. -/
def bracketAt (l : List Char) : Option (List Char) :=
  match l.dropWhile isPySpace with
  | '[' :: rest =>
    let inner := rest.takeWhile (fun c => c ≠ ']')
    match rest.dropWhile (fun c => c ≠ ']') with
    | ']' :: tail => if inner.isEmpty then none else some (tail.dropWhile isPySpace)
    | _ => none
  | _ => none

/-- Global `re.sub(r'\s*\[[^\]]+\]\s*', '', s)`: left-to-right scan, skipping
over each match.  Fuelled by the list length (every match consumes at least
three characters, so the fuel never runs out on the reachable calls). -/
def removeBracketedAux : Nat → List Char → List Char
  | 0, l => l
  | _ + 1, [] => []
  | n + 1, c :: rest =>
    match bracketAt (c :: rest) with
    | some after => removeBracketedAux n after
    | none => c :: removeBracketedAux n rest

/-- Remove every bracketed annotation such as `"[Special Edition]"`. -/
def removeBracketed (l : List Char) : List Char :=
  removeBracketedAux l.length l

/-- Literal-prefix test on character lists. -/
def litAt : List Char → List Char → Bool
  | [], _ => true
  | _ :: _, [] => false
  | p :: ps, c :: cs => p = c && litAt ps cs

/-- Match of `:\s+<lit>.*$` at the current position (a colon, at least one
whitespace character, then the literal). -/
def colonLitMatch (lit : List Char) (l : List Char) : Bool :=
  match l with
  | ':' :: r :: rest => isPySpace r && litAt lit ((r :: rest).dropWhile isPySpace)
  | _ => false

/-- Match of `:\s+book \d+.*$` at the current position. -/
def bookNumMatch (l : List Char) : Bool :=
  match l with
  | ':' :: r :: rest =>
    isPySpace r &&
      (let after := (r :: rest).dropWhile isPySpace
       litAt "book ".data after && !((after.drop 5).takeWhile Char.isDigit).isEmpty)
  | _ => false

/-- `re.sub(pat, '', s)` for a pattern of the form `...​.*$`: truncate at the
leftmost position where `m` matches (both patterns above require a colon, so
they never match the empty string). -/
def cutFromMatch (m : List Char → Bool) : List Char → List Char
  | [] => []
  | c :: rest => if m (c :: rest) then [] else c :: cutFromMatch m rest

/-- `normalize_title_for_dedup` from `build_base_dataset.py`: strip, remove a
trailing series annotation, remove a trailing parenthetical, remove bracketed
annotations, lowercase/strip/collapse whitespace, then drop `": a novel..."`
and `": book N..."` subtitles. -/
def normalize_title_for_dedup (s : String) : String :=
  let t0 := pyStripList s.data
  let t1 := stripTrailingMatch seriesSuffixMatch t0
  let t2 := stripTrailingMatch parenSuffixMatch t1
  let t3 := removeBracketed t2
  let t4 := squeezeWs (pyStripList (t3.map Char.toLower))
  let t5 := cutFromMatch (colonLitMatch "a novel".data) t4
  let t6 := cutFromMatch bookNumMatch t5
  ⟨t6⟩

/-- `normalize_author` from `build_base_dataset.py`: strip, and convert
`"Last, First"` to `"First Last"` by splitting on the first comma. -/
def normalize_author (s : String) : String :=
  let a := pyStripList s.data
  if a.contains ',' then
    let p0 := pyStripList (a.takeWhile (fun c => c ≠ ','))
    let p1 := pyStripList ((a.dropWhile (fun c => c ≠ ',')).tail)
    ⟨p1 ++ ' ' :: p0⟩
  else ⟨a⟩

/-- One match attempt of `\s*\([^)]+\)` (no trailing whitespace consumption)
at the current position, used by `normalize_author_for_dedup`. -/
def parenAt (l : List Char) : Option (List Char) :=
  match l.dropWhile isPySpace with
  | '(' :: rest =>
    let inner := rest.takeWhile (fun c => c ≠ ')')
    match rest.dropWhile (fun c => c ≠ ')') with
    | ')' :: tail => if inner.isEmpty then none else some tail
    | _ => none
  | _ => none

/-- Global `re.sub(r'\s*\([^)]+\)', '', author)`, fuelled like
`removeBracketedAux`. -/
def removeParensAux : Nat → List Char → List Char
  | 0, l => l
  | _ + 1, [] => []
  | n + 1, c :: rest =>
    match parenAt (c :: rest) with
    | some after => removeParensAux n after
    | none => c :: removeParensAux n rest

/-- Remove every parenthetical role annotation such as `"(Illustrator)"`. -/
def removeParens (l : List Char) : List Char :=
  removeParensAux l.length l

/-- Separator of `re.split(r',\s+(?=[A-Z])', author)`: a comma, at least one
whitespace character, with the next non-whitespace character an ASCII capital
(the lookahead). -/
def coauthorSepAt (l : List Char) : Bool :=
  match l with
  | ',' :: r :: rest =>
    isPySpace r &&
      (match (r :: rest).dropWhile isPySpace with
       | u :: _ => decide ('A' ≤ u) && decide (u ≤ 'Z')
       | [] => false)
  | _ => false

/-- Number of whitespace-separated tokens, as in Python `len(s.split())`. -/
def tokenCountAux : Bool → List Char → Nat
  | _, [] => 0
  | inTok, c :: rest =>
    if isPySpace c then tokenCountAux false rest
    else (if inTok then 0 else 1) + tokenCountAux true rest

/-- Token count of a character list. -/
def tokenCount (l : List Char) : Nat :=
  tokenCountAux false l

/-- `normalize_author_for_dedup` from `build_base_dataset.py`: strip, remove
parenthetical annotations, keep only the text before the first co-author
separator, convert `"Last, First"` to `"First Last"` when the remainder has at
most two tokens, then lowercase and strip. -/
def normalize_author_for_dedup (s : String) : String :=
  let a0 := pyStripList s.data
  let a1 := removeParens a0
  let a2 := pyStripList (cutFromMatch coauthorSepAt a1)
  let a3 :=
    if a2.contains ',' then
      let p0 := pyStripList (a2.takeWhile (fun c => c ≠ ','))
      let p1 := pyStripList ((a2.dropWhile (fun c => c ≠ ',')).tail)
      if tokenCount p1 ≤ 2 then p1 ++ ' ' :: p0 else a2
    else a2
  ⟨pyStripList (a3.map Char.toLower)⟩

/-- Hash/id fallback of `generate_book_key` (priorities 2 and 3).  `hashFn`
abstracts the truncated md5 hex digest `hashlib.md5(...).hexdigest()[:12]`:
none of the specified properties depend on the digest values, only on the
`"ta:"`-tagged shape of the key. -/
def keyFallback (hashFn : String → String) (title author : String)
    (book_id : Option String) : String :=
  match book_id with
  | some b =>
    if b ≠ "" then "gr:" ++ b
    else "ta:" ++ hashFn (normalize_text title ++ "|" ++ normalize_text author)
  | none => "ta:" ++ hashFn (normalize_text title ++ "|" ++ normalize_text author)

/-- `generate_book_key` from `build_base_dataset.py`.  The Python guard
`isbn13 and not pd.isna(isbn13) and isbn13 != 'nan'` becomes: the `Option` is
`some s` with `s` non-empty and different from the literal string `"nan"`
(`pd.isna` is false on every `str`; `none` models `None`/NaN). -/
def generate_book_key (hashFn : String → String) (isbn13 : Option String)
    (title author : String) (book_id : Option String) : String :=
  match isbn13 with
  | some s =>
    if s ≠ "" && s ≠ "nan" then "isbn:" ++ s
    else keyFallback hashFn title author book_id
  | none => keyFallback hashFn title author book_id

/-! Data model of `build_base_dataset.py`.  Possibly-missing (NaN) scalar
cells become `Option` fields; string cells that the script initialises with a
default become plain `String` fields. -/

/-- A row of the unified record schema built in `main` (the columns the
matching, deduplication and enrichment logic reads or writes). -/
structure BookRow where
  book_key : String
  title : String
  author : String
  isbn13 : Option String
  isbn10 : Option String
  description_raw : String
  genres_list : String
  cover_image_url : String
  avg_rating : Option Rat
  num_ratings : Option Int
  popularity_score : Option Int
  is_read : Bool
  my_rating : Option Int
  date_read : Option String
  source : String
  deriving Repr, DecidableEq

/-- A Goodreads export row after the ISBN-cleaning steps (the columns read by
the `gr_records` construction). -/
structure GoodreadsRow where
  Title : String
  Author : String
  isbn13_clean : Option String
  isbn10_clean : Option String
  BookId : String
  AvgRating : Option Rat
  MyRating : Option Int
  DateRead : Option String
  deriving Repr, DecidableEq

/-- A Kaggle corpus row after normalization (the columns read by the matching
and backfill logic). -/
structure KaggleRow where
  title : String
  author : String
  isbn_clean : Option String
  description : Option String
  genres : Option String
  coverImg : Option String
  rating : Option Rat
  numRatings : Option Int
  deriving Repr, DecidableEq

/-- Construction of a `gr_records` row from a Goodreads row (the `DataFrame`
literal in `main`): description, genres and cover start empty, ratings and
dates are copied, `is_read` is `True`, and the key uses the Goodreads Book Id
as native id. -/
def grRecordOfRow (hashFn : String → String) (g : GoodreadsRow) : BookRow :=
  { book_key := generate_book_key hashFn g.isbn13_clean g.Title g.Author (some g.BookId)
    title := g.Title
    author := g.Author
    isbn13 := g.isbn13_clean
    isbn10 := g.isbn10_clean
    description_raw := ""
    genres_list := "[]"
    cover_image_url := ""
    avg_rating := g.AvgRating
    num_ratings := none
    popularity_score := none
    is_read := true
    my_rating := g.MyRating
    date_read := g.DateRead
    source := "goodreads_export" }

/-- Normalized (title, author) pair of a Goodreads row, as stored in the
`goodreads_titles_authors` set (`title_norm` is `normalize_text`,
`author_norm` is `normalize_author`). -/
def grPairOf (g : GoodreadsRow) : String × String :=
  (normalize_text g.Title, normalize_author g.Author)

/-- The `goodreads_titles_authors` set (membership-only, modelled as a list of
pairs). -/
def grPairsOf (rows : List GoodreadsRow) : List (String × String) :=
  rows.map grPairOf

/-- The `kaggle_by_isbn` lookup: first row whose cleaned ISBN equals the key
(pandas `drop_duplicates(keep='first')` + `to_dict`; rows without an ISBN are
dropped first). -/
def kaggleByIsbn (ks : List KaggleRow) (i : String) : Option KaggleRow :=
  ks.find? (fun k => k.isbn_clean = some i)

/-- The `kaggle_by_title_author` lookup: first row whose
(`normalize_text` title, `normalize_author` author) pair equals the key. -/
def kaggleByTA (ks : List KaggleRow) (p : String × String) : Option KaggleRow :=
  ks.find? (fun k => (normalize_text k.title, normalize_author k.author) = p)

/-- Match selection of the backfill loop in `main` (lines 407-417): try the
ISBN lookup; otherwise, if the record's RAW (title, author) pair is in the set
of NORMALIZED Goodreads pairs, look up
(`normalize_text` title, `normalize_text (normalize_author author)`) in the
title+author table.  This mirrors the source exactly, including the raw-pair
guard and the extra lowercasing of the author key. -/
def findKaggleMatch (grPairs : List (String × String)) (ks : List KaggleRow)
    (r : BookRow) : Option KaggleRow :=
  let isbnHit := match r.isbn13 with
                 | some i => kaggleByIsbn ks i
                 | none => none
  match isbnHit with
  | some m => some m
  | none =>
    if grPairs.contains (r.title, r.author) then
      kaggleByTA ks (normalize_text r.title, normalize_text (normalize_author r.author))
    else none

/-- Field backfill of the loop body (lines 419-429): description, genres and
cover are assigned from the Kaggle match (dict `get` with defaults), the
average rating only when missing, and popularity/ratings-count only when
missing or zero. -/
def backfillFromKaggle (r : BookRow) (m : KaggleRow) : BookRow :=
  { r with
    description_raw := m.description.getD ""
    genres_list := m.genres.getD "[]"
    cover_image_url := m.coverImg.getD ""
    avg_rating := if r.avg_rating = none then m.rating else r.avg_rating
    popularity_score :=
      if r.popularity_score = none ∨ r.popularity_score = some 0
      then some (m.numRatings.getD 0) else r.popularity_score
    num_ratings :=
      if r.popularity_score = none ∨ r.popularity_score = some 0
      then some (m.numRatings.getD 0) else r.num_ratings }

/-! Deduplication (`main`, lines 465-495). -/

/-- `drop_duplicates(subset=['book_key'], keep='first')`: keep the first
record for each `book_key`, preserving order. -/
def dropDupByKey : List BookRow → List BookRow
  | [] => []
  | r :: rest => r :: dropDupByKey (rest.filter (fun x => x.book_key ≠ r.book_key))
termination_by l => l.length
decreasing_by
  exact Nat.lt_succ_of_le (List.length_filter_le _ _)

/-- The `dedup_key` column: dedup-normalized title and author joined by a
bar. -/
def dedupKeyOf (r : BookRow) : String :=
  normalize_title_for_dedup r.title ++ "|" ++ normalize_author_for_dedup r.author

/-- Second deduplication pass: keep a record iff it is read, or its dedup key
matches no read record (`mask_keep = is_read | ~dedup_key.isin(read_keys)`). -/
def secondPass (rs : List BookRow) : List BookRow :=
  let readKeys := (rs.filter (fun r => r.is_read)).map dedupKeyOf
  rs.filter (fun r => r.is_read || !(readKeys.contains (dedupKeyOf r)))

/-! Enrichment merge-back (`enrich_books.py`, `main`, lines 261-300). -/

/-- A row of the books CSV during the enrichment merge (the columns the merge
reads or writes; missing cells are modelled as the empty string, matching
`fillna("")`/`str(NaN) -> ""` handling in the masks). -/
structure MergeRow where
  book_key : String
  title : String
  author : String
  description_raw : String
  cover_image_url : String
  categories_raw : String
  subjects_raw : String
  description_source : String
  cover_image_source : String
  deriving Repr, DecidableEq

/-- The per-key enrichment columns joined onto a row (`merged.merge(...,
how="left")`); `none` models a row with no enrichment result. -/
structure EnrichNew where
  description_new : Option String
  description_source_new : Option String
  cover_image_url_new : String
  cover_source_new : Option String
  categories_raw_new : String
  subjects_raw_new : String
  deriving Repr, DecidableEq

/-- The merge-back policy applied to one row: fill the description when the
existing one strips to fewer than 80 characters and the new one has at least
80; fill the cover when the existing one strips to empty and the new one is
non-empty; fill categories/subjects when the existing cell is empty. -/
def applyEnrichMerge (b : MergeRow) (e : Option EnrichNew) : MergeRow :=
  let dNew := match e with
              | some x => x.description_new.getD ""
              | none => ""
  let dSrc := match e with
              | some x => x.description_source_new.getD ""
              | none => ""
  let cNew := match e with
              | some x => x.cover_image_url_new
              | none => ""
  let cSrc := match e with
              | some x => x.cover_source_new.getD ""
              | none => ""
  let catNew := match e with
                | some x => x.categories_raw_new
                | none => ""
  let subNew := match e with
                | some x => x.subjects_raw_new
                | none => ""
  let maskD := (pyStrip b.description_raw).length < 80 ∧ 80 ≤ dNew.length
  let maskC := (pyStrip b.cover_image_url).length = 0 ∧ 0 < cNew.length
  let maskCat := b.categories_raw.length = 0
  let maskSub := b.subjects_raw.length = 0
  { b with
    description_raw := if maskD then dNew else b.description_raw
    description_source := if maskD then dSrc else b.description_source
    cover_image_url := if maskC then cNew else b.cover_image_url
    cover_image_source := if maskC then cSrc else b.cover_image_source
    categories_raw := if maskCat then catNew else b.categories_raw
    subjects_raw := if maskSub then subNew else b.subjects_raw }

/-! Enrichment queue processing (`enrich_books.py`, `main`, lines 211-233). -/

/-- `clean_isbn` from `enrich_books.py`.  The `strip` and the
`replace('="', ...)` calls only delete characters that the final
`re.sub(r"[^0-9Xx]", "", ...)` deletes anyway, so the composition is the
keep-filter followed by uppercasing; unlike the builder's `clean_isbn`, there
is no minimum-length check and the empty string means "no ISBN". -/
def cleanIsbnE (s : String) : String :=
  ⟨(s.data.filter isIsbnKeep).map Char.toUpper⟩

/-- A row of the enrichment queue CSV (the columns the loop reads). -/
structure QueueRow where
  book_key : String
  isbn : String
  deriving Repr, DecidableEq

/-- The success payload produced by `enrich_one` (the fields the pipeline
stores; the external lookups fill them).  Kept as data since the loop treats
it opaquely: it is cached and recorded verbatim. -/
structure EnrichPayload where
  isbn : String
  fetched_at : String
  description : Option String
  cover_image_url : Option String
  deriving Repr, DecidableEq

/-- A value of the `results` dict: either the `enrich_one` payload or the
error record `{"isbn": ..., "error": str(e), "fetched_at": now_iso()}`. -/
inductive EnrichOutcome where
  | ok (p : EnrichPayload)
  | fail (isbn error fetched_at : String)
  deriving Repr, DecidableEq

/-- The enrichment loop.  `enrichOne` abstracts the external `enrich_one`
call: `Except.error msg` models a raised exception with message `msg`.
`nowAt` gives the `now_iso()` timestamp observed at the 1-based row index.
The cache and results dicts are association lists with most-recent-first
lookup; rows whose cleaned ISBN is empty are skipped (`continue`). -/
def processQueue (enrichOne : String → Except String EnrichPayload)
    (nowAt : Nat → String) :
    List QueueRow → Nat → List (String × EnrichPayload) →
    List (String × EnrichOutcome) →
    List (String × EnrichPayload) × List (String × EnrichOutcome)
  | [], _, cache, results => (cache, results)
  | r :: rest, i, cache, results =>
    let isbn := cleanIsbnE r.isbn
    if isbn = "" then
      processQueue enrichOne nowAt rest (i + 1) cache results
    else
      match cache.lookup isbn with
      | some p =>
        processQueue enrichOne nowAt rest (i + 1) cache
          ((r.book_key, EnrichOutcome.ok p) :: results)
      | none =>
        match enrichOne isbn with
        | Except.ok p =>
          processQueue enrichOne nowAt rest (i + 1) ((isbn, p) :: cache)
            ((r.book_key, EnrichOutcome.ok p) :: results)
        | Except.error msg =>
          processQueue enrichOne nowAt rest (i + 1) cache
            ((r.book_key, EnrichOutcome.fail isbn msg (nowAt i)) :: results)

/-! Exclusion filter (`apply_exclusions.py`). -/

/-- A published library record as read by `apply_exclusions.py`.  `genres`
holds the parsed genre list (the source accepts a JSON string and parses it,
treating malformed values as `[]`); `description` is `none` when absent. -/
structure Book where
  id : String
  title : String
  author : String
  is_read : Bool
  my_rating : Option Int
  date_read : Option String
  genres : List String
  description : Option String
  deriving Repr, DecidableEq

/-- The exclusion config: three rule toggles (`rules.get(..., False)` makes a
missing toggle `false`) plus the three blocklists. -/
structure Exclusions where
  exclude_no_date_read : Bool
  exclude_one_star : Bool
  exclude_unread : Bool
  exclude_titles : List String
  exclude_authors : List String
  exclude_ids : List String
  deriving Repr, DecidableEq

/-- Python falsiness of `book.get('date_read')`: absent or empty string. -/
def dateReadFalsy (d : Option String) : Bool :=
  match d with
  | none => true
  | some s => s = ""

/-- `should_exclude` from `apply_exclusions.py`: the chain of rules in source
order, first match wins, `(False, None)` when nothing matches.  Title and
author blocklists compare lowercased. -/
def should_exclude (book : Book) (ex : Exclusions) : Bool × Option String :=
  if ex.exclude_no_date_read && (book.is_read && dateReadFalsy book.date_read) then
    (true, some "no_date_read")
  else if ex.exclude_one_star && (book.my_rating == some 1) then
    (true, some "one_star")
  else if ex.exclude_unread && !book.is_read then
    (true, some "unread")
  else if (ex.exclude_titles.map pyLower).contains (pyLower book.title) then
    (true, some "title_list")
  else if (ex.exclude_authors.map pyLower).contains (pyLower book.author) then
    (true, some "author_list")
  else if ex.exclude_ids.contains book.id then
    (true, some "id_list")
  else (false, none)

/-- Specification-side rule table, written from the spec's sentence: the six
rules in the stated order, each paired with its machine-readable reason tag. -/
def exclusionRulesSpec : List ((Book → Exclusions → Bool) × String) :=
  [ (fun b ex => ex.exclude_no_date_read && (b.is_read && dateReadFalsy b.date_read),
      "no_date_read")
  , (fun b ex => ex.exclude_one_star && (b.my_rating == some 1), "one_star")
  , (fun b ex => ex.exclude_unread && !b.is_read, "unread")
  , (fun b ex => (ex.exclude_titles.map pyLower).contains (pyLower b.title),
      "title_list")
  , (fun b ex => (ex.exclude_authors.map pyLower).contains (pyLower b.author),
      "author_list")
  , (fun b ex => ex.exclude_ids.contains b.id, "id_list") ]

/-- Specification-side exclusion decision: the reason tag of the first rule in
the table that matches, or keep. -/
def shouldExcludeSpec (b : Book) (ex : Exclusions) : Bool × Option String :=
  match exclusionRulesSpec.find? (fun pr => pr.1 b ex) with
  | some pr => (true, some pr.2)
  | none => (false, none)

/-- The filtering step of `run_exclusions`: keep the books `should_exclude`
rejects nothing for. -/
def filterBooks (ex : Exclusions) (books : List Book) : List Book :=
  books.filter (fun b => !(should_exclude b ex).1)

/-! Analytics recomputation (`recalculate_analytics`). -/

/-- Counter key order: first occurrence wins (Python dicts preserve insertion
order). -/
def firstKeysAux : List String → List String → List String
  | _, [] => []
  | seen, a :: rest =>
    if seen.contains a then firstKeysAux seen rest
    else a :: firstKeysAux (a :: seen) rest

/-- Distinct keys of a multiset of strings, in first-occurrence order. -/
def firstKeys (l : List String) : List String :=
  firstKeysAux [] l

/-- Stable insertion into a descending-by-count list: an element moves ahead
only of strictly smaller counts, so ties keep first-occurrence order, as
Python's stable `sorted(..., reverse=True)` used by `most_common` does. -/
def insertByCount (cnt : String → Nat) (a : String) : List String → List String
  | [] => [a]
  | b :: rest =>
    if cnt a ≥ cnt b then a :: b :: rest else b :: insertByCount cnt a rest

/-- Stable sort, descending by count. -/
def sortByCountDesc (cnt : String → Nat) : List String → List String
  | [] => []
  | a :: rest => insertByCount cnt a (sortByCountDesc cnt rest)

/-- `Counter(items).most_common(n)`: the `n` most frequent values with their
counts, ties in first-occurrence order. -/
def mostCommon (n : Nat) (items : List String) : List (String × Nat) :=
  ((sortByCountDesc (fun g => items.count g) (firstKeys items)).take n).map
    (fun g => (g, items.count g))

/-- The genre contributions of the breakdown: the first three genres of every
read book. -/
def genreContribs (books : List Book) : List String :=
  ((books.filter (fun b => b.is_read)).map (fun b => b.genres.take 3)).flatten

/-- The analytics payload rebuilt by `recalculate_analytics` (the discrete
fields; the two floating-point averages `average_rating` and
`coverage_percent` are outside the embedding). -/
structure Analytics where
  total_books : Nat
  books_read : Nat
  books_unread : Nat
  books_with_descriptions : Nat
  five_star_books : Nat
  rating_distribution : List (Int × Nat)
  genre_breakdown : List (String × Nat)
  top_authors : List (String × Nat)
  shelf_summary : List (String × Nat)
  deriving Repr, DecidableEq

/-- `recalculate_analytics` from `apply_exclusions.py`, on the filtered book
list: every aggregate is recomputed from scratch. -/
def recalculate_analytics (books : List Book) : Analytics :=
  let read_books := books.filter (fun b => b.is_read)
  let unread_books := books.filter (fun b => !b.is_read)
  { total_books := books.length
    books_read := read_books.length
    books_unread := unread_books.length
    books_with_descriptions :=
      books.countP (fun b => 50 < (b.description.getD "").length)
    five_star_books := read_books.countP (fun b => b.my_rating == some 5)
    rating_distribution :=
      [5, 4, 3, 2, 1, 0].map
        (fun r => (r, read_books.countP (fun b => b.my_rating.getD 0 == r)))
    genre_breakdown := mostCommon 15 (genreContribs books)
    top_authors := mostCommon 10 (read_books.map (fun b => b.author))
    shelf_summary :=
      [("read", read_books.length), ("unread", unread_books.length)] }

/-- Python truthiness-and-validity of the ISBN argument of
`generate_book_key`: a present, non-empty string different from `"nan"`. -/
def validIsbnOpt (o : Option String) : Bool :=
  match o with
  | some s => decide (s ≠ "") && decide (s ≠ "nan")
  | none => false

/-- Python truthiness of the native-id argument of `generate_book_key`. -/
def validIdOpt (o : Option String) : Bool :=
  match o with
  | some b => decide (b ≠ "")
  | none => false

/-! Concrete witness inputs. -/

/-- Witness hash stand-in. -/
def wHash : String → String := fun _ => "d41d8cd98f00"

/-- Witness exclusion config: drop one-star and undated-read records. -/
def wExcl : Exclusions :=
  { exclude_no_date_read := true
    exclude_one_star := true
    exclude_unread := false
    exclude_titles := []
    exclude_authors := []
    exclude_ids := [] }

/-- Witness published record that survives filtering. -/
def wBookA : Book :=
  { id := "isbn:9780441013593"
    title := "Dune"
    author := "Frank Herbert"
    is_read := true
    my_rating := some 5
    date_read := some "2020/01/01"
    genres := ["Science Fiction", "Classics"]
    description := some "A desert planet epic." }

/-- Witness published record removed by the one-star rule. -/
def wBookB : Book :=
  { id := "isbn:0000000000"
    title := "Disliked"
    author := "Some Author"
    is_read := true
    my_rating := some 1
    date_read := some "2021/02/02"
    genres := ["Horror"]
    description := none }

/-- Witness unread corpus record that survives filtering. -/
def wBookC : Book :=
  { id := "isbn:9780553283686"
    title := "Hyperion"
    author := "Dan Simmons"
    is_read := false
    my_rating := none
    date_read := none
    genres := ["Science Fiction"]
    description := some "Pilgrims tell their tales." }

/-- Witness published record set. -/
def wBooks : List Book :=
  [wBookA, wBookB, wBookC]

/-- Witness read record for the deduplication claims. -/
def wReadRow : BookRow :=
  { book_key := "isbn:9780441013593"
    title := "Dune (Dune, #1)"
    author := "Herbert, Frank"
    isbn13 := some "9780441013593"
    isbn10 := none
    description_raw := ""
    genres_list := "[]"
    cover_image_url := ""
    avg_rating := some 4
    num_ratings := none
    popularity_score := none
    is_read := true
    my_rating := some 5
    date_read := some "2020/01/01"
    source := "goodreads_export" }

/-- Witness surviving unread record for the deduplication claims. -/
def wUnreadRow : BookRow :=
  { book_key := "isbn:9780553283686"
    title := "Hyperion"
    author := "Dan Simmons"
    isbn13 := some "9780553283686"
    isbn10 := none
    description_raw := "x"
    genres_list := "[]"
    cover_image_url := ""
    avg_rating := some 4
    num_ratings := some 2000
    popularity_score := some 2000
    is_read := false
    my_rating := none
    date_read := none
    source := "kaggle_best_books" }

/-- Witness record set for the deduplication claims. -/
def wRecords : List BookRow :=
  [wReadRow, wUnreadRow]

/-- Witness Goodreads row. -/
def wGr : GoodreadsRow :=
  { Title := "Dune"
    Author := "Herbert, Frank"
    isbn13_clean := some "9780441013593"
    isbn10_clean := none
    BookId := "123"
    AvgRating := some 4
    MyRating := some 5
    DateRead := some "2020/01/01" }

/-- Witness Kaggle row. -/
def wKag : KaggleRow :=
  { title := "Dune"
    author := "Frank Herbert"
    isbn_clean := some "9780441013593"
    description := some "A desert planet epic."
    genres := some "['Science Fiction']"
    coverImg := some "http://covers.example/dune.jpg"
    rating := some 4
    numRatings := some 100000 }

/-- Witness row for the enrichment merge. -/
def wMerge : MergeRow :=
  { book_key := "isbn:9780441013593"
    title := "Dune"
    author := "Frank Herbert"
    description_raw := "short"
    cover_image_url := "http://covers.example/dune.jpg"
    categories_raw := "[\"Fiction\"]"
    subjects_raw := ""
    description_source := ""
    cover_image_source := "" }

/-- Witness enrichment columns. -/
def wEnrichNew : EnrichNew :=
  { description_new := some "longer description text"
    description_source_new := some "google_books"
    cover_image_url_new := "http://covers.example/new.jpg"
    cover_source_new := some "open_library_covers"
    categories_raw_new := "[\"SF\"]"
    subjects_raw_new := "[\"Space\"]" }

/-! Concrete inputs exhibiting the Pass-2 fallback miss (C6). -/

/-- A Goodreads row whose ISBN is absent, so only the title+author fallback
could match it. -/
def c6GrRow : GoodreadsRow :=
  { Title := "Dune"
    Author := "Herbert, Frank"
    isbn13_clean := none
    isbn10_clean := none
    BookId := "11"
    AvgRating := none
    MyRating := some 5
    DateRead := some "2020/01/01" }

/-- The primary record built from `c6GrRow` by the pipeline's own
construction. -/
def c6Primary : BookRow :=
  grRecordOfRow wHash c6GrRow

/-- A corpus row with the same normalized (title, author) pair as
`c6Primary` and no ISBN. -/
def c6Corpus : KaggleRow :=
  { title := "Dune"
    author := "Frank Herbert"
    isbn_clean := none
    description := some "Desert planet epic."
    genres := some "['Science Fiction']"
    coverImg := some "http://img.example/dune.jpg"
    rating := some 4
    numRatings := some 50000 }

/-- A lowercase-titled Goodreads row: its raw pair does pass the raw-pair
guard, isolating the second failure mode (the lowercased author lookup
key). -/
def c6GrRow2 : GoodreadsRow :=
  { Title := "dune"
    Author := "Frank Herbert"
    isbn13_clean := none
    isbn10_clean := none
    BookId := "12"
    AvgRating := none
    MyRating := some 4
    DateRead := some "2021/01/01" }

/-- The primary record built from `c6GrRow2`. -/
def c6Primary2 : BookRow :=
  grRecordOfRow wHash c6GrRow2

/-- A corpus row matching `c6Primary2` up to normalization. -/
def c6Corpus2 : KaggleRow :=
  { c6Corpus with title := "dune" }

/-! Concrete inputs for the enrichment-loop claim (C9). -/

/-- Witness enrichment payload. -/
def wPayload : EnrichPayload :=
  { isbn := "9780441013593"
    fetched_at := "2026-10-12T00:00:00+00:00"
    description := some "A desert planet epic."
    cover_image_url := some "http://covers.example/dune.jpg" }

/-- Witness external lookup: fails on one ISBN, succeeds elsewhere. -/
def wEnrichOne : String → Except String EnrichPayload :=
  fun isbn =>
    if isbn = "1111111111" then Except.error "HTTP 503" else Except.ok wPayload

/-- Witness clock. -/
def wNow : Nat → String :=
  fun _ => "2026-10-12T00:00:01+00:00"

/-- Witness queue row whose lookup fails. -/
def wRowFail : QueueRow :=
  { book_key := "gr:11", isbn := "1111111111" }

/-- Witness queue row served from the cache. -/
def wRowHit : QueueRow :=
  { book_key := "isbn:9780441013593", isbn := "=\"9780441013593\"" }

/-- Witness cache holding the hit row's payload. -/
def wCache : List (String × EnrichPayload) :=
  [("9780441013593", wPayload)]

end SmartBooks

namespace SmartBooks

/-! Library-level helper lemmas. -/

theorem dataAppend (a b : String) : (a ++ b).data = a.data ++ b.data := by
  cases a
  cases b
  rfl

theorem keyShapeIsbnNeGr (s t : String) : "isbn:" ++ s ≠ "gr:" ++ t := by
  intro h
  have h2 := congrArg String.data h
  rw [dataAppend, dataAppend] at h2
  simp only [String.data] at h2
  simp at h2

theorem keyShapeIsbnNeTa (s t : String) : "isbn:" ++ s ≠ "ta:" ++ t := by
  intro h
  have h2 := congrArg String.data h
  rw [dataAppend, dataAppend] at h2
  simp at h2

theorem keyShapeGrNeTa (s t : String) : "gr:" ++ s ≠ "ta:" ++ t := by
  intro h
  have h2 := congrArg String.data h
  rw [dataAppend, dataAppend] at h2
  simp at h2

/-- C1: with a valid (non-empty, non-`"nan"`) cleaned ISBN13 present, and a
source-native book id also present, `generate_book_key` returns the ISBN key
form and never the native-id or hash forms; moreover (for the same title and
author inputs) a native-id-form key arises only when no valid ISBN is present,
and a hash-form key only when neither a valid ISBN nor a native id is
present. -/
theorem c1_isbn_priority (hashFn : String → String) (title author : String)
    (s b : String) (h1 : s ≠ "") (h2 : s ≠ "nan") :
    generate_book_key hashFn (some s) title author (some b) = "isbn:" ++ s ∧
    (∀ t, generate_book_key hashFn (some s) title author (some b) ≠ "gr:" ++ t) ∧
    (∀ t, generate_book_key hashFn (some s) title author (some b) ≠ "ta:" ++ t) ∧
    (∀ i bid t, generate_book_key hashFn i title author bid = "gr:" ++ t →
      validIsbnOpt i = false ∧ validIdOpt bid = true) ∧
    (∀ i bid t, generate_book_key hashFn i title author bid = "ta:" ++ t →
      validIsbnOpt i = false ∧ validIdOpt bid = false) := by
  have hkey : generate_book_key hashFn (some s) title author (some b) = "isbn:" ++ s := by
    simp [generate_book_key, h1, h2]
  refine ⟨hkey, ?_, ?_, ?_, ?_⟩
  · intro t
    rw [hkey]
    exact keyShapeIsbnNeGr s t
  · intro t
    rw [hkey]
    exact keyShapeIsbnNeTa s t
  · intro i bid t hk
    match i with
    | some s' =>
      by_cases hv : s' ≠ "" ∧ s' ≠ "nan"
      · rw [show generate_book_key hashFn (some s') title author bid = "isbn:" ++ s' by
          simp [generate_book_key, hv.1, hv.2]] at hk
        exact absurd hk (keyShapeIsbnNeGr s' t)
      · have hfb : generate_book_key hashFn (some s') title author bid
            = keyFallback hashFn title author bid := by
          simp only [generate_book_key]
          rw [if_neg]
          simp only [Bool.and_eq_true, decide_eq_true_eq]
          exact hv
        rw [hfb] at hk
        have hvi : validIsbnOpt (some s') = false := by
          simp only [validIsbnOpt, Bool.and_eq_false_iff]
          by_cases he : s' = ""
          · left; simp [he]
          · right
            simp only [decide_eq_false_iff_not, ne_eq, not_not]
            by_contra hnan
            exact hv ⟨he, hnan⟩
        match bid with
        | some b' =>
          by_cases hb : b' = ""
          · rw [show keyFallback hashFn title author (some b') = "ta:" ++
                hashFn (normalize_text title ++ "|" ++ normalize_text author) by
              simp [keyFallback, hb]] at hk
            exact absurd hk.symm (keyShapeGrNeTa t _)
          · exact ⟨hvi, by simp [validIdOpt, hb]⟩
        | none =>
          rw [show keyFallback hashFn title author none = "ta:" ++
              hashFn (normalize_text title ++ "|" ++ normalize_text author) from rfl] at hk
          exact absurd hk.symm (keyShapeGrNeTa t _)
    | none =>
      simp only [generate_book_key] at hk
      match bid with
      | some b' =>
        by_cases hb : b' = ""
        · rw [show keyFallback hashFn title author (some b') = "ta:" ++
              hashFn (normalize_text title ++ "|" ++ normalize_text author) by
            simp [keyFallback, hb]] at hk
          exact absurd hk.symm (keyShapeGrNeTa t _)
        · exact ⟨rfl, by simp [validIdOpt, hb]⟩
      | none =>
        rw [show keyFallback hashFn title author none = "ta:" ++
            hashFn (normalize_text title ++ "|" ++ normalize_text author) from rfl] at hk
        exact absurd hk.symm (keyShapeGrNeTa t _)
  · intro i bid t hk
    match i with
    | some s' =>
      by_cases hv : s' ≠ "" ∧ s' ≠ "nan"
      · rw [show generate_book_key hashFn (some s') title author bid = "isbn:" ++ s' by
          simp [generate_book_key, hv.1, hv.2]] at hk
        exact absurd hk (keyShapeIsbnNeTa s' t)
      · have hfb : generate_book_key hashFn (some s') title author bid
            = keyFallback hashFn title author bid := by
          simp only [generate_book_key]
          rw [if_neg]
          simp only [Bool.and_eq_true, decide_eq_true_eq]
          exact hv
        rw [hfb] at hk
        have hvi : validIsbnOpt (some s') = false := by
          simp only [validIsbnOpt, Bool.and_eq_false_iff]
          by_cases he : s' = ""
          · left; simp [he]
          · right
            simp only [decide_eq_false_iff_not, ne_eq, not_not]
            by_contra hnan
            exact hv ⟨he, hnan⟩
        match bid with
        | some b' =>
          by_cases hb : b' = ""
          · exact ⟨hvi, by simp [validIdOpt, hb]⟩
          · rw [show keyFallback hashFn title author (some b') = "gr:" ++ b' by
              simp [keyFallback, hb]] at hk
            exact absurd hk (keyShapeGrNeTa b' t)
        | none => exact ⟨hvi, rfl⟩
    | none =>
      simp only [generate_book_key] at hk
      match bid with
      | some b' =>
        by_cases hb : b' = ""
        · exact ⟨rfl, by simp [validIdOpt, hb]⟩
        · rw [show keyFallback hashFn title author (some b') = "gr:" ++ b' by
            simp [keyFallback, hb]] at hk
          exact absurd hk (keyShapeGrNeTa b' t)
      | none => exact ⟨rfl, rfl⟩

/-- Witness for C1 at a concrete input. -/
theorem c1_isbn_priority_witness :
    ("9780441013593" ≠ "") ∧ ("9780441013593" ≠ "nan") ∧
    generate_book_key wHash (some "9780441013593") "Dune" "Herbert, Frank"
      (some "123") = "isbn:" ++ "9780441013593" :=
  ⟨by decide, by decide,
    (c1_isbn_priority wHash "Dune" "Herbert, Frank" "9780441013593" "123"
      (by decide) (by decide)).1⟩

/-- C10: calling `generate_book_key` with the literal string `"nan"` as ISBN
skips the ISBN branch even though `"nan"` is a truthy non-empty string — the
key falls through to the native-id form when a book id is given, else to the
hash form — while every other non-empty cleaned ISBN string takes the ISBN
branch. -/
theorem c10_nan_isbn (hashFn : String → String) :
    (∀ title author b, b ≠ "" →
      generate_book_key hashFn (some "nan") title author (some b) = "gr:" ++ b) ∧
    (∀ title author,
      generate_book_key hashFn (some "nan") title author none
        = "ta:" ++ hashFn (normalize_text title ++ "|" ++ normalize_text author)) ∧
    (∀ s title author bid, s ≠ "" → s ≠ "nan" →
      generate_book_key hashFn (some s) title author bid = "isbn:" ++ s) := by
  refine ⟨?_, ?_, ?_⟩
  · intro title author b hb
    simp [generate_book_key, keyFallback, hb]
  · intro title author
    simp [generate_book_key, keyFallback]
  · intro s title author bid h1 h2
    simp [generate_book_key, h1, h2]

/-- Witness for C10 at concrete inputs. -/
theorem c10_nan_isbn_witness :
    ("123" ≠ "") ∧
    generate_book_key wHash (some "nan") "Dune" "Frank Herbert" (some "123")
      = "gr:" ++ "123" ∧
    ("9780441013593" ≠ "") ∧ ("9780441013593" ≠ "nan") ∧
    generate_book_key wHash (some "9780441013593") "Dune" "Frank Herbert" none
      = "isbn:" ++ "9780441013593" :=
  ⟨by decide, (c10_nan_isbn wHash).1 "Dune" "Frank Herbert" "123" (by decide),
    by decide, by decide,
    (c10_nan_isbn wHash).2.2 "9780441013593" "Dune" "Frank Herbert" none
      (by decide) (by decide)⟩

/-! Deduplication lemmas. -/

theorem mem_of_mem_dropDupByKey (rs : List BookRow) (x : BookRow)
    (hx : x ∈ dropDupByKey rs) : x ∈ rs := by
  match rs with
  | [] => simp [dropDupByKey] at hx
  | r :: rest =>
    rw [dropDupByKey] at hx
    rcases List.mem_cons.mp hx with h | h
    · exact h ▸ List.mem_cons_self r rest
    · exact List.mem_cons_of_mem r
        (List.mem_of_mem_filter (mem_of_mem_dropDupByKey _ x h))
termination_by rs.length
decreasing_by
  exact Nat.lt_succ_of_le (List.length_filter_le _ _)

theorem nodup_keys_dropDupByKey (rs : List BookRow) :
    ((dropDupByKey rs).map (fun r => r.book_key)).Nodup := by
  match rs with
  | [] => simp [dropDupByKey]
  | r :: rest =>
    rw [dropDupByKey]
    simp only [List.map_cons, List.nodup_cons]
    constructor
    · intro hmem
      rcases List.mem_map.mp hmem with ⟨y, hy, hkey⟩
      have hyin := mem_of_mem_dropDupByKey _ y hy
      have hne := (List.mem_filter.mp hyin).2
      simp only [ne_eq, decide_eq_true_eq] at hne
      exact hne hkey
    · exact nodup_keys_dropDupByKey _
termination_by rs.length
decreasing_by
  exact Nat.lt_succ_of_le (List.length_filter_le _ _)

/-- C2: the second deduplication pass never keeps an `is_read = false` record
whose dedup-normalized (title, author) pair occurs on some `is_read = true`
record of the set, and it never removes an `is_read = true` record. -/
theorem c2_read_priority (rs : List BookRow) :
    (∀ r, r ∈ secondPass rs → r.is_read = false →
      ∀ q, q ∈ rs → q.is_read = true →
        (normalize_title_for_dedup r.title, normalize_author_for_dedup r.author)
          ≠ (normalize_title_for_dedup q.title, normalize_author_for_dedup q.author)) ∧
    (∀ q, q ∈ rs → q.is_read = true → q ∈ secondPass rs) := by
  constructor
  · intro r hr hread q hq hqread hpair
    have hkeyeq : dedupKeyOf r = dedupKeyOf q := by
      have h1 := congrArg Prod.fst hpair
      have h2 := congrArg Prod.snd hpair
      simp only at h1 h2
      simp [dedupKeyOf, h1, h2]
    simp only [secondPass] at hr
    have hin : dedupKeyOf r ∈ (rs.filter (fun r => r.is_read)).map dedupKeyOf := by
      rw [hkeyeq]
      exact List.mem_map_of_mem dedupKeyOf (List.mem_filter.mpr ⟨hq, by simp [hqread]⟩)
    have helem : ((rs.filter (fun r => r.is_read)).map dedupKeyOf).contains (dedupKeyOf r)
        = true := List.elem_iff.mpr hin
    have hmem := (List.mem_filter.mp hr).2
    rw [hread, Bool.false_or, helem] at hmem
    simp at hmem
  · intro q hq hqread
    simp only [secondPass]
    exact List.mem_filter.mpr ⟨hq, by simp [hqread]⟩

/-- Witness for C2 at a concrete two-record set. -/
theorem c2_read_priority_witness :
    (wUnreadRow ∈ secondPass wRecords) ∧ (wUnreadRow.is_read = false) ∧
    (wReadRow ∈ wRecords) ∧ (wReadRow.is_read = true) ∧
    ((normalize_title_for_dedup wUnreadRow.title,
        normalize_author_for_dedup wUnreadRow.author)
      ≠ (normalize_title_for_dedup wReadRow.title,
          normalize_author_for_dedup wReadRow.author)) ∧
    (wReadRow ∈ secondPass wRecords) :=
  ⟨by decide, by decide, by decide, by decide,
    (c2_read_priority wRecords).1 wUnreadRow (by decide) (by decide)
      wReadRow (by decide) (by decide),
    (c2_read_priority wRecords).2 wReadRow (by decide) (by decide)⟩

/-- C3: after the `book_key` drop-duplicates pass followed by the
title+author second pass, no two records of the output share a `book_key`,
for every input record list. -/
theorem c3_unique_book_keys (rs : List BookRow) :
    ((secondPass (dropDupByKey rs)).map (fun r => r.book_key)).Nodup := by
  have hsub : (secondPass (dropDupByKey rs)).Sublist (dropDupByKey rs) := by
    simp only [secondPass]
    exact List.filter_sublist _
  exact List.Nodup.sublist (List.Sublist.map (fun r => r.book_key) hsub)
    (nodup_keys_dropDupByKey rs)

/-! Character-level lemmas for the ISBN normalizer. -/

theorem digit_toNat_bounds (c : Char) (h : c.isDigit = true) :
    48 ≤ c.toNat ∧ c.toNat ≤ 57 := by
  simp only [Char.isDigit, Bool.and_eq_true, decide_eq_true_eq] at h
  obtain ⟨h1, h2⟩ := h
  rw [ge_iff_le, UInt32.le_def] at h1
  rw [UInt32.le_def] at h2
  constructor
  · simpa [Char.toNat] using h1
  · simpa [Char.toNat] using h2

theorem ne_of_toNat_ne (c d : Char) (h : c.toNat ≠ d.toNat) : c ≠ d := by
  intro he
  exact h (congrArg Char.toNat he)

theorem toUpper_of_isDigit (c : Char) (h : c.isDigit = true) : c.toUpper = c := by
  obtain ⟨h1, h2⟩ := digit_toNat_bounds c h
  unfold Char.toUpper
  rw [if_neg]
  omega

theorem isbnKeep_toUpper_props (c : Char) (h : isIsbnKeep c = true) :
    isIsbnKeep c.toUpper = true ∧ isIsbnJunk c.toUpper = false ∧
      c.toUpper.toUpper = c.toUpper ∧ isPySpace c.toUpper = false := by
  simp only [isIsbnKeep, Bool.or_eq_true, decide_eq_true_eq] at h
  rcases h with (hd | hX) | hx
  · have hu := toUpper_of_isDigit c hd
    obtain ⟨h1, h2⟩ := digit_toNat_bounds c hd
    rw [hu]
    refine ⟨by simp [isIsbnKeep, hd], ?_, hu, ?_⟩
    · simp only [isIsbnJunk, isPySpace, Bool.or_eq_false_iff, decide_eq_false_iff_not]
      repeat' apply And.intro
      all_goals (apply ne_of_toNat_ne; intro hn; rw [hn] at h1 h2; revert h1 h2; decide)
    · simp only [isPySpace, Bool.or_eq_false_iff, decide_eq_false_iff_not]
      repeat' apply And.intro
      all_goals (apply ne_of_toNat_ne; intro hn; rw [hn] at h1 h2; revert h1 h2; decide)
  · subst hX
    refine ⟨by decide, by decide, by decide, by decide⟩
  · subst hx
    refine ⟨by decide, by decide, by decide, by decide⟩

theorem dropWhile_eq_self_of (p : Char → Bool) (l : List Char)
    (h : ∀ c ∈ l, p c = false) : l.dropWhile p = l := by
  cases l with
  | nil => rfl
  | cons a t =>
    rw [List.dropWhile_cons, if_neg]
    simp [h a (List.mem_cons_self a t)]

theorem pyStripList_eq_self_of (l : List Char)
    (h : ∀ c ∈ l, isPySpace c = false) : pyStripList l = l := by
  unfold pyStripList
  rw [dropWhile_eq_self_of _ l h]
  rw [dropWhile_eq_self_of _ l.reverse (fun c hc => h c (List.mem_reverse.mp hc))]
  exact List.reverse_reverse l

theorem cleanIsbnCore_elems (l : List Char) :
    ∀ c ∈ cleanIsbnCore l, isIsbnKeep c = true ∧ isIsbnJunk c = false ∧
      c.toUpper = c ∧ isPySpace c = false := by
  intro c hc
  unfold cleanIsbnCore at hc
  rcases List.mem_map.mp hc with ⟨d, hd, hud⟩
  have hkeep := (List.mem_filter.mp hd).2
  obtain ⟨p1, p2, p3, p4⟩ := isbnKeep_toUpper_props d hkeep
  exact hud ▸ ⟨p1, p2, p3, p4⟩

theorem cleanIsbnCore_fixed (l : List Char)
    (h : ∀ c ∈ l, isIsbnKeep c = true ∧ isIsbnJunk c = false ∧
      c.toUpper = c ∧ isPySpace c = false) : cleanIsbnCore l = l := by
  unfold cleanIsbnCore
  have e1 : List.filter (fun c => !isIsbnJunk c) l = l :=
    List.filter_eq_self.mpr (fun a ha => by simp [(h a ha).2.1])
  rw [e1]
  have e2 : pyStripList l = l := pyStripList_eq_self_of l (fun a ha => (h a ha).2.2.2)
  rw [e2]
  have e3 : List.filter isIsbnKeep l = l :=
    List.filter_eq_self.mpr (fun a ha => (h a ha).1)
  rw [e3]
  exact (List.map_congr_left (fun a ha => (h a ha).2.2.1)).trans (List.map_id l)

/-- C5 counterexample: the dedup title normalizer and the author normalizer
are not idempotent — a second application strips a further trailing
parenthetical, and a second application rotates a further comma segment. -/
theorem c5_counterexample :
    (normalize_title_for_dedup (normalize_title_for_dedup "a (b) (c)")
        ≠ normalize_title_for_dedup "a (b) (c)") ∧
    (normalize_author (normalize_author "Smith, John, Jane")
        ≠ normalize_author "Smith, John, Jane") := by
  constructor
  · decide
  · decide

/-- C5 (amended): the ISBN normalizer is idempotent on every input that
yields a valid (non-`none`) result — `clean_isbn` maps its own valid output
to itself; the title-dedup and author normalizers are not idempotent in
general (see the counterexample). -/
theorem c5_isbn_idempotent (s r : String) (h : clean_isbn s = some r) :
    clean_isbn r = some r := by
  simp only [clean_isbn] at h ⊢
  by_cases hlen : (cleanIsbnCore s.data).length < 10
  · rw [if_pos hlen] at h
    cases h
  · rw [if_neg hlen] at h
    have hr : r = ⟨cleanIsbnCore s.data⟩ := (Option.some.inj h).symm
    subst hr
    have hfix : cleanIsbnCore (String.data ⟨cleanIsbnCore s.data⟩)
        = cleanIsbnCore s.data := by
      show cleanIsbnCore (cleanIsbnCore s.data) = cleanIsbnCore s.data
      exact cleanIsbnCore_fixed _ (cleanIsbnCore_elems s.data)
    rw [hfix, if_neg hlen]

/-- Witness for C5 at a concrete spreadsheet-escaped ISBN. -/
theorem c5_isbn_idempotent_witness :
    clean_isbn "=\"978-0439-708180\"" = some "9780439708180" ∧
    clean_isbn "9780439708180" = some "9780439708180" :=
  ⟨by decide,
    c5_isbn_idempotent "=\"978-0439-708180\"" "9780439708180" (by decide)⟩

/-- C7: for every book and every exclusion config, `should_exclude` agrees
with first-match evaluation of the spec's ordered rule table — it returns the
distinct tag of the first matching rule, in the order no-date-read, one-star,
unread, title blocklist, author blocklist, id blocklist, and `(false, none)`
(keep) when no rule matches. -/
theorem c7_rule_order (b : Book) (ex : Exclusions) :
    should_exclude b ex = shouldExcludeSpec b ex := by
  simp only [should_exclude, shouldExcludeSpec, exclusionRulesSpec]
  by_cases h1 :
      (ex.exclude_no_date_read && (b.is_read && dateReadFalsy b.date_read)) = true
  · simp [List.find?, h1]
  rw [Bool.not_eq_true] at h1
  by_cases h2 : (ex.exclude_one_star && (b.my_rating == some 1)) = true
  · simp [List.find?, h1, h2]
  rw [Bool.not_eq_true] at h2
  by_cases h3 : (ex.exclude_unread && !b.is_read) = true
  · simp [List.find?, h1, h2, h3]
  rw [Bool.not_eq_true] at h3
  by_cases h4 : ∃ a ∈ ex.exclude_titles, pyLower a = pyLower b.title
  · simp [List.find?, h1, h2, h3, h4]
  by_cases h5 : ∃ a ∈ ex.exclude_authors, pyLower a = pyLower b.author
  · simp [List.find?, h1, h2, h3, h4, h5]
  by_cases h6 : b.id ∈ ex.exclude_ids
  · simp [List.find?, h1, h2, h3, h4, h5, h6]
  simp [List.find?, h1, h2, h3, h4, h5, h6]

/-! Analytics lemmas. -/

theorem length_filter_add_length_filter_not {α : Type} (p : α → Bool)
    (l : List α) :
    (l.filter p).length + (l.filter (fun a => !p a)).length = l.length := by
  induction l with
  | nil => rfl
  | cons a t ih =>
    by_cases h : p a = true
    · simp only [List.filter_cons, h, if_pos, Bool.not_true, if_neg, Bool.false_eq_true,
        not_false_eq_true, List.length_cons]
      omega
    · have h2 : p a = false := by
        simp only [Bool.not_eq_true] at h
        exact h
      simp only [List.filter_cons, h2, Bool.not_false, Bool.false_eq_true, if_neg,
        not_false_eq_true, if_pos, List.length_cons]
      omega

theorem mem_insertByCount (cnt : String → Nat) (a x : String) (l : List String) :
    x ∈ insertByCount cnt a l ↔ x = a ∨ x ∈ l := by
  induction l with
  | nil => simp [insertByCount]
  | cons b t ih =>
    by_cases h : cnt a ≥ cnt b
    · simp only [insertByCount, if_pos h, List.mem_cons]
    · simp only [insertByCount, if_neg h, List.mem_cons, ih]
      tauto

theorem mem_sortByCountDesc (cnt : String → Nat) (x : String) (l : List String) :
    x ∈ sortByCountDesc cnt l ↔ x ∈ l := by
  induction l with
  | nil => simp [sortByCountDesc]
  | cons a t ih =>
    simp only [sortByCountDesc, mem_insertByCount, List.mem_cons, ih]

theorem mem_of_mem_firstKeysAux (l : List String) :
    ∀ seen x, x ∈ firstKeysAux seen l → x ∈ l := by
  induction l with
  | nil =>
    intro seen x h
    simp [firstKeysAux] at h
  | cons a t ih =>
    intro seen x h
    rw [firstKeysAux] at h
    by_cases hc : seen.contains a = true
    · rw [if_pos hc] at h
      exact List.mem_cons_of_mem a (ih seen x h)
    · rw [if_neg hc] at h
      rcases List.mem_cons.mp h with h1 | h1
      · exact h1 ▸ List.mem_cons_self a t
      · exact List.mem_cons_of_mem a (ih (a :: seen) x h1)

/-- C8: for every exclusion rule set and every input record list, the
analytics recomputed from the filtered records have shelf-summary counts
(read plus unread) summing to the number of surviving records, and every
genre counted in the breakdown is contributed by a surviving record (and its
count is the count over surviving read records only). -/
theorem c8_recompute_consistency (ex : Exclusions) (books : List Book) :
    ((recalculate_analytics (filterBooks ex books)).shelf_summary.map Prod.snd).sum
      = (filterBooks ex books).length ∧
    ∀ gc ∈ (recalculate_analytics (filterBooks ex books)).genre_breakdown,
      gc.2 = (genreContribs (filterBooks ex books)).count gc.1 ∧
      ∃ b, b ∈ filterBooks ex books ∧ b.is_read = true ∧ gc.1 ∈ b.genres.take 3 := by
  constructor
  · simp only [recalculate_analytics, List.map_cons, List.map_nil, List.sum_cons,
      List.sum_nil]
    have := length_filter_add_length_filter_not (fun b => b.is_read)
      (filterBooks ex books)
    omega
  · intro gc hgc
    simp only [recalculate_analytics, mostCommon] at hgc
    rcases List.mem_map.mp hgc with ⟨g, hg, rfl⟩
    have hgsort := List.mem_of_mem_take hg
    have hgfirst := (mem_sortByCountDesc _ g _).mp hgsort
    have hgitems := mem_of_mem_firstKeysAux _ [] g hgfirst
    refine ⟨rfl, ?_⟩
    unfold genreContribs at hgitems
    rcases List.mem_flatten.mp hgitems with ⟨gl, hgl, hgin⟩
    rcases List.mem_map.mp hgl with ⟨b, hb, hbl⟩
    have hbf := List.mem_filter.mp hb
    exact ⟨b, hbf.1, hbf.2, hbl ▸ hgin⟩

/-- Witness for C8 at a concrete config and record set. -/
theorem c8_recompute_consistency_witness :
    (((recalculate_analytics (filterBooks wExcl wBooks)).shelf_summary.map
        Prod.snd).sum = (filterBooks wExcl wBooks).length) ∧
    (("Science Fiction", 1)
        ∈ (recalculate_analytics (filterBooks wExcl wBooks)).genre_breakdown) ∧
    (1 = (genreContribs (filterBooks wExcl wBooks)).count "Science Fiction" ∧
      ∃ b, b ∈ filterBooks wExcl wBooks ∧ b.is_read = true ∧
        "Science Fiction" ∈ b.genres.take 3) :=
  ⟨(c8_recompute_consistency wExcl wBooks).1, by decide,
    (c8_recompute_consistency wExcl wBooks).2 ("Science Fiction", 1) (by decide)⟩

theorem str_eq_empty_of_length (s : String) (h : s.length = 0) : s = "" := by
  cases s with
  | mk data =>
    cases data with
    | nil => rfl
    | cons a t => simp [String.length] at h

/-- C4: a populated metadata field of a primary record is never overwritten.
For the Matcher's backfill loop applied to a pipeline-built primary record:
identity and read-state fields are untouched; a present average rating and a
non-zero popularity are preserved; and the description/genres/cover fields
(which the construction initialises empty, so they are never populated at
this point) are preserved whenever populated.  For the enrichment merge:
a description that strips to at least the 80-character threshold, a
non-blank cover, and non-empty categories/subjects cells are preserved. -/
theorem c4_no_overwrite :
    (∀ (hashFn : String → String) (g : GoodreadsRow) (m : KaggleRow),
      (backfillFromKaggle (grRecordOfRow hashFn g) m).book_key
          = (grRecordOfRow hashFn g).book_key ∧
      (backfillFromKaggle (grRecordOfRow hashFn g) m).title
          = (grRecordOfRow hashFn g).title ∧
      (backfillFromKaggle (grRecordOfRow hashFn g) m).author
          = (grRecordOfRow hashFn g).author ∧
      (backfillFromKaggle (grRecordOfRow hashFn g) m).isbn13
          = (grRecordOfRow hashFn g).isbn13 ∧
      (backfillFromKaggle (grRecordOfRow hashFn g) m).isbn10
          = (grRecordOfRow hashFn g).isbn10 ∧
      (backfillFromKaggle (grRecordOfRow hashFn g) m).is_read
          = (grRecordOfRow hashFn g).is_read ∧
      (backfillFromKaggle (grRecordOfRow hashFn g) m).my_rating
          = (grRecordOfRow hashFn g).my_rating ∧
      (backfillFromKaggle (grRecordOfRow hashFn g) m).date_read
          = (grRecordOfRow hashFn g).date_read ∧
      ((grRecordOfRow hashFn g).avg_rating ≠ none →
        (backfillFromKaggle (grRecordOfRow hashFn g) m).avg_rating
          = (grRecordOfRow hashFn g).avg_rating) ∧
      ((grRecordOfRow hashFn g).description_raw ≠ "" →
        (backfillFromKaggle (grRecordOfRow hashFn g) m).description_raw
          = (grRecordOfRow hashFn g).description_raw) ∧
      (¬((grRecordOfRow hashFn g).genres_list = "[]" ∨
          (grRecordOfRow hashFn g).genres_list = "") →
        (backfillFromKaggle (grRecordOfRow hashFn g) m).genres_list
          = (grRecordOfRow hashFn g).genres_list) ∧
      ((grRecordOfRow hashFn g).cover_image_url ≠ "" →
        (backfillFromKaggle (grRecordOfRow hashFn g) m).cover_image_url
          = (grRecordOfRow hashFn g).cover_image_url) ∧
      ((∃ n, (grRecordOfRow hashFn g).popularity_score = some n ∧ n ≠ 0) →
        (backfillFromKaggle (grRecordOfRow hashFn g) m).popularity_score
            = (grRecordOfRow hashFn g).popularity_score ∧
        (backfillFromKaggle (grRecordOfRow hashFn g) m).num_ratings
            = (grRecordOfRow hashFn g).num_ratings)) ∧
    (∀ (b : MergeRow) (e : Option EnrichNew),
      (applyEnrichMerge b e).book_key = b.book_key ∧
      (applyEnrichMerge b e).title = b.title ∧
      (applyEnrichMerge b e).author = b.author ∧
      (80 ≤ (pyStrip b.description_raw).length →
        (applyEnrichMerge b e).description_raw = b.description_raw ∧
        (applyEnrichMerge b e).description_source = b.description_source) ∧
      ((pyStrip b.cover_image_url).length ≠ 0 →
        (applyEnrichMerge b e).cover_image_url = b.cover_image_url ∧
        (applyEnrichMerge b e).cover_image_source = b.cover_image_source) ∧
      (b.categories_raw ≠ "" →
        (applyEnrichMerge b e).categories_raw = b.categories_raw) ∧
      (b.subjects_raw ≠ "" →
        (applyEnrichMerge b e).subjects_raw = b.subjects_raw)) := by
  constructor
  · intro hashFn g m
    refine ⟨rfl, rfl, rfl, rfl, rfl, rfl, rfl, rfl, ?_, ?_, ?_, ?_, ?_⟩
    · intro h
      simp only [backfillFromKaggle]
      rw [if_neg h]
    · intro h
      exact absurd rfl h
    · intro h
      exact absurd (Or.inl rfl) h
    · intro h
      exact absurd rfl h
    · intro h
      rcases h with ⟨n, hn, _⟩
      cases hn
  · intro b e
    refine ⟨rfl, rfl, rfl, ?_, ?_, ?_, ?_⟩
    · intro h
      constructor <;>
        · simp only [applyEnrichMerge]
          split
          · omega
          · rfl
    · intro h
      constructor <;>
        · simp only [applyEnrichMerge]
          split
          · omega
          · rfl
    · intro h
      simp only [applyEnrichMerge]
      split
      · rename_i hmask
        exact absurd (str_eq_empty_of_length _ hmask) h
      · rfl
    · intro h
      simp only [applyEnrichMerge]
      split
      · rename_i hmask
        exact absurd (str_eq_empty_of_length _ hmask) h
      · rfl

/-- Witness for C4: a populated average rating survives the Kaggle backfill,
and a populated categories cell survives the enrichment merge. -/
theorem c4_no_overwrite_witness :
    ((grRecordOfRow wHash wGr).avg_rating ≠ none) ∧
    ((backfillFromKaggle (grRecordOfRow wHash wGr) wKag).avg_rating
        = (grRecordOfRow wHash wGr).avg_rating) ∧
    (wMerge.categories_raw ≠ "") ∧
    ((applyEnrichMerge wMerge (some wEnrichNew)).categories_raw
        = wMerge.categories_raw) :=
  ⟨by decide,
    (c4_no_overwrite.1 wHash wGr wKag).2.2.2.2.2.2.2.2.1 (by decide),
    by decide,
    (c4_no_overwrite.2 wMerge (some wEnrichNew)).2.2.2.2.2.1 (by decide)⟩

/-- C6: the title+author fallback of the backfill loop fails even though the
normalized (title, author) pairs of the primary record and a corpus record
coincide — the raw-pair guard compares raw values against normalized ones,
and the lookup key lowercases the author while the table keys do not.  The
theorem evaluates the code at the two failing inputs. -/
theorem c6_fallback_miss :
    ((normalize_text c6Primary.title, normalize_author c6Primary.author)
        = (normalize_text c6Corpus.title, normalize_author c6Corpus.author)) ∧
    findKaggleMatch (grPairsOf [c6GrRow]) [c6Corpus] c6Primary = none ∧
    ((normalize_text c6Primary2.title, normalize_author c6Primary2.author)
        = (normalize_text c6Corpus2.title, normalize_author c6Corpus2.author)) ∧
    ((grPairsOf [c6GrRow2]).contains (c6Primary2.title, c6Primary2.author) = true) ∧
    findKaggleMatch (grPairsOf [c6GrRow2]) [c6Corpus2] c6Primary2 = none := by
  refine ⟨by decide, by decide, by decide, by decide, by decide⟩

/-! Enrichment-loop lemmas. -/

theorem processQueue_cons (f : String → Except String EnrichPayload)
    (now : Nat → String) (r : QueueRow) (rest : List QueueRow) (i : Nat)
    (cache : List (String × EnrichPayload))
    (results : List (String × EnrichOutcome)) :
    processQueue f now (r :: rest) i cache results =
      if cleanIsbnE r.isbn = "" then
        processQueue f now rest (i + 1) cache results
      else
        match cache.lookup (cleanIsbnE r.isbn) with
        | some p =>
          processQueue f now rest (i + 1) cache
            ((r.book_key, EnrichOutcome.ok p) :: results)
        | none =>
          match f (cleanIsbnE r.isbn) with
          | Except.ok p =>
            processQueue f now rest (i + 1) ((cleanIsbnE r.isbn, p) :: cache)
              ((r.book_key, EnrichOutcome.ok p) :: results)
          | Except.error msg =>
            processQueue f now rest (i + 1) cache
              ((r.book_key, EnrichOutcome.fail (cleanIsbnE r.isbn) msg (now i))
                :: results) := rfl

theorem lookup_cons_isSome {β : Type} (k kh : String) (v : β)
    (l : List (String × β)) (h : (l.lookup k).isSome = true) :
    (((kh, v) :: l).lookup k).isSome = true := by
  rw [List.lookup_cons]
  cases hbe : k == kh <;> simp [h]

theorem lookup_cons_self_isSome {β : Type} (k : String) (v : β)
    (l : List (String × β)) : (((k, v) :: l).lookup k).isSome = true := by
  rw [List.lookup_cons]
  simp

theorem processQueue_lookup_preserved (f : String → Except String EnrichPayload)
    (now : Nat → String) :
    ∀ (rows : List QueueRow) (i : Nat) (cache : List (String × EnrichPayload))
      (results : List (String × EnrichOutcome)) (k : String),
      (results.lookup k).isSome = true →
      (((processQueue f now rows i cache results).2).lookup k).isSome = true := by
  intro rows
  induction rows with
  | nil =>
    intro i cache results k h
    simpa [processQueue] using h
  | cons r rest ih =>
    intro i cache results k h
    rw [processQueue_cons]
    by_cases hi : cleanIsbnE r.isbn = ""
    · rw [if_pos hi]
      exact ih _ _ _ _ h
    · rw [if_neg hi]
      cases hc : cache.lookup (cleanIsbnE r.isbn) with
      | some p =>
        exact ih _ _ _ _ (lookup_cons_isSome k r.book_key _ _ h)
      | none =>
        cases hf : f (cleanIsbnE r.isbn) with
        | ok p =>
          exact ih _ _ _ _ (lookup_cons_isSome k r.book_key _ _ h)
        | error msg =>
          exact ih _ _ _ _ (lookup_cons_isSome k r.book_key _ _ h)

/-- C9: the enrichment loop records every queue row that has a usable ISBN.
Part 1: whatever the external lookup does — every failure included — each
such row ends with an entry in `results`, so one failed call never aborts the
batch.  Part 2: when the ISBN is not cached and the external call raises, the
loop records an error payload carrying the ISBN, the message and the
timestamp, keyed by the row's `book_key`, leaves the cache unchanged, and
continues with the remaining rows.  Part 3: when the ISBN is cached the row
is served from the cache — the step's outcome is the same for every external
lookup function, so no external call is involved. -/
theorem c9_error_containment :
    (∀ (f : String → Except String EnrichPayload) (now : Nat → String)
        (rows : List QueueRow) (r : QueueRow), r ∈ rows →
        cleanIsbnE r.isbn ≠ "" →
        ∀ (i : Nat) (cache : List (String × EnrichPayload))
          (results : List (String × EnrichOutcome)),
          (((processQueue f now rows i cache results).2).lookup
              r.book_key).isSome = true) ∧
    (∀ (f : String → Except String EnrichPayload) (now : Nat → String)
        (r : QueueRow) (rest : List QueueRow) (i : Nat)
        (cache : List (String × EnrichPayload))
        (results : List (String × EnrichOutcome)) (msg : String),
        cleanIsbnE r.isbn ≠ "" →
        cache.lookup (cleanIsbnE r.isbn) = none →
        f (cleanIsbnE r.isbn) = Except.error msg →
        processQueue f now (r :: rest) i cache results =
          processQueue f now rest (i + 1) cache
            ((r.book_key,
                EnrichOutcome.fail (cleanIsbnE r.isbn) msg (now i)) :: results)) ∧
    (∀ (f : String → Except String EnrichPayload) (now : Nat → String)
        (r : QueueRow) (rest : List QueueRow) (i : Nat)
        (cache : List (String × EnrichPayload))
        (results : List (String × EnrichOutcome)) (p : EnrichPayload),
        cleanIsbnE r.isbn ≠ "" →
        cache.lookup (cleanIsbnE r.isbn) = some p →
        processQueue f now (r :: rest) i cache results =
          processQueue f now rest (i + 1) cache
            ((r.book_key, EnrichOutcome.ok p) :: results)) := by
  refine ⟨?_, ?_, ?_⟩
  · intro f now rows
    induction rows with
    | nil =>
      intro r hr
      simp at hr
    | cons q rest ih =>
      intro r hr hisbn i cache results
      rcases List.mem_cons.mp hr with rfl | hmem
      · rw [processQueue_cons, if_neg hisbn]
        cases hc : cache.lookup (cleanIsbnE r.isbn) with
        | some p =>
          exact processQueue_lookup_preserved f now _ _ _ _ _
            (lookup_cons_self_isSome r.book_key _ _)
        | none =>
          cases hf : f (cleanIsbnE r.isbn) with
          | ok p =>
            exact processQueue_lookup_preserved f now _ _ _ _ _
              (lookup_cons_self_isSome r.book_key _ _)
          | error msg =>
            exact processQueue_lookup_preserved f now _ _ _ _ _
              (lookup_cons_self_isSome r.book_key _ _)
      · rw [processQueue_cons]
        by_cases hq : cleanIsbnE q.isbn = ""
        · rw [if_pos hq]
          exact ih r hmem hisbn _ _ _
        · rw [if_neg hq]
          cases hc : cache.lookup (cleanIsbnE q.isbn) with
          | some p => exact ih r hmem hisbn _ _ _
          | none =>
            cases hf : f (cleanIsbnE q.isbn) with
            | ok p => exact ih r hmem hisbn _ _ _
            | error msg => exact ih r hmem hisbn _ _ _
  · intro f now r rest i cache results msg hisbn hcache hf
    rw [processQueue_cons, if_neg hisbn, hcache, hf]
  · intro f now r rest i cache results p hisbn hcache
    rw [processQueue_cons, if_neg hisbn, hcache]

/-- Witness for C9: a concrete failing row is recorded and a concrete cached
row is served from the cache. -/
theorem c9_error_containment_witness :
    (wRowFail ∈ [wRowFail]) ∧ (cleanIsbnE wRowFail.isbn ≠ "") ∧
    (((processQueue wEnrichOne wNow [wRowFail] 1 [] []).2).lookup
        wRowFail.book_key).isSome = true ∧
    ((List.lookup (cleanIsbnE wRowFail.isbn)
          ([] : List (String × EnrichPayload)) = none) ∧
      wEnrichOne (cleanIsbnE wRowFail.isbn) = Except.error "HTTP 503" ∧
      processQueue wEnrichOne wNow [wRowFail] 1 [] [] =
        processQueue wEnrichOne wNow [] 2 []
          [(wRowFail.book_key,
              EnrichOutcome.fail (cleanIsbnE wRowFail.isbn) "HTTP 503"
                (wNow 1))]) ∧
    ((wCache.lookup (cleanIsbnE wRowHit.isbn) = some wPayload) ∧
      processQueue wEnrichOne wNow [wRowHit] 1 wCache [] =
        processQueue wEnrichOne wNow [] 2 wCache
          [(wRowHit.book_key, EnrichOutcome.ok wPayload)]) :=
  ⟨by decide, by decide,
    c9_error_containment.1 wEnrichOne wNow [wRowFail] wRowFail
      (by decide) (by decide) 1 [] [],
    ⟨by decide, by rfl,
      c9_error_containment.2.1 wEnrichOne wNow wRowFail [] 1 [] [] "HTTP 503"
        (by decide) (by decide) (by rfl)⟩,
    ⟨by decide,
      c9_error_containment.2.2 wEnrichOne wNow wRowHit [] 1 wCache []
        wPayload (by decide) (by decide)⟩⟩

end SmartBooks
